import Mathlib

/-!
Verification of the orchestration contract of `PeriodicHill/runScript.py`,
a DAFoam field-inversion driver script.  The script builds a configuration
record (`daOptions`), wires an OpenMDAO computation graph (nodes `dvs`,
`scenario1`, `obj`), selects one of three optimizers from the `-optimizer`
command-line token, and dispatches on the `-task` token.  We embed the
configuration literals, the graph wiring, the `ExecComp` expression
evaluator, and the top-level dispatch as an event-trace semantics, and
prove the spec's claims about them.
-/

namespace RunScript

/-! ## Configuration constants (runScript.py lines 29-33) -/

def U0 : ℚ := 28 / 1000

def nuTilda0 : ℚ := 1 / 10000

def J0 : ℚ := 479729567 / 10000000000

def nCells : Nat := 3500

/-! ## The `function` map of `daOptions` (runScript.py lines 47-67) -/

/-- One entry of `daOptions["function"]`: a named scalar output of the
solver, with its aggregation options as written in the Python dict. -/
structure DAFunction where
  type : String
  source : String
  scale : ℚ
  mode : String
  varName : String
  varType : String
  indices : Option (List Nat)
  timeDependentRefData : Bool
  deriving DecidableEq, Repr

/-- `daOptions["function"]["UFieldVar"]` (lines 48-57). -/
def uFieldVar : DAFunction :=
  { type := "variance"
    source := "allCells"
    scale := 1
    mode := "field"
    varName := "U"
    varType := "vector"
    indices := some [0, 1]
    timeDependentRefData := false }

/-- `daOptions["function"]["betaVar"]` (lines 58-66); the Python dict has
no `indices` key, embedded as `none`. -/
def betaVar : DAFunction :=
  { type := "variance"
    source := "allCells"
    scale := 1
    mode := "field"
    varName := "betaFINuTilda"
    varType := "scalar"
    indices := none
    timeDependentRefData := false }

/-- `daOptions["function"]` as an association list. -/
def daFunctions : List (String × DAFunction) :=
  [("UFieldVar", uFieldVar), ("betaVar", betaVar)]

/-! ## Graph wiring from `Top.setup` / `Top.configure` (lines 89-118) -/

/-- The output added on the `dvs` component by
`self.dvs.add_output("beta", val=np.ones(nCells), distributed=False)`
(line 108). -/
structure DVOutput where
  name : String
  val : List ℚ
  distributed : Bool
  deriving DecidableEq, Repr

/-- All outputs added to `dvs` in `Top.configure`: exactly one, `beta`,
an array of ones of length `nCells`. -/
def dvsOutputs : List DVOutput :=
  [{ name := "beta", val := List.replicate nCells 1, distributed := false }]

/-- A design variable declared by `add_design_var` (line 112). -/
structure DesignVar where
  name : String
  lower : ℚ
  upper : ℚ
  scaler : ℚ
  deriving DecidableEq, Repr

/-- The design variables declared in `Top.configure`. -/
def designVars : List DesignVar :=
  [{ name := "beta", lower := -5, upper := 10, scaler := 1 }]

/-- The objectives declared in `Top.configure` (line 118): name and scaler. -/
def objectives : List (String × ℚ) := [("obj.val", 1)]

/-- The `self.connect` edges of `Top.configure` (lines 109, 116, 117),
as (source, target) pairs. -/
def connections : List (String × String) :=
  [("beta", "scenario1.beta"),
   ("scenario1.aero_post.UFieldVar", "obj.error"),
   ("scenario1.aero_post.betaVar", "obj.regulation")]

/-- The source promoted name connected to a target name, if any. -/
def sourceOf (dst : String) : Option String :=
  (connections.find? (fun c => c.2 = dst)).map (fun c => c.1)

/-! ## The `obj` component: `om.ExecComp("val=error+regulation")` (line 104)

`ExecComp` evaluates the right-hand side of its expression string on the
component's input values.  For the sum-of-variables expressions it is
given here, the right-hand side is a `+`-separated list of input names. -/

/-- The expression string passed to `om.ExecComp` at line 104. -/
def execCompExpr : String := "val=error+regulation"

/-- Split a character list at a separator character. -/
def splitCharAux (sep : Char) : List Char → List Char → List String
  | [], cur => [String.mk cur.reverse]
  | c :: cs, cur =>
    if c = sep then String.mk cur.reverse :: splitCharAux sep cs []
    else splitCharAux sep cs (c :: cur)

/-- Split a string at every occurrence of a separator character. -/
def splitChar (sep : Char) (s : String) : List String :=
  splitCharAux sep s.toList []

/-- Right-hand side of an `ExecComp` expression string `lhs=rhs`. -/
def rhsOf (s : String) : String := (splitChar (Char.ofNat 61) s).getD 1 ""

/-- Evaluate a sum-of-variables `ExecComp` expression against an
environment giving the value of each input variable. -/
def evalExecComp (exprStr : String) (env : String → ℚ) : ℚ :=
  ((splitChar (Char.ofNat 43) (rhsOf exprStr)).map env).sum

/-- The environment seen by the `obj` component's inputs: each input
`name` receives the value of the upstream source connected to
`obj.name`, per the `connections` table; an unconnected input reads 0. -/
def objEnv (v : String → ℚ) : String → ℚ := fun name =>
  match sourceOf ("obj." ++ name) with
  | some src => v src
  | none => 0

/-- The value of `obj.val` as a function of the valuation `v` of the
upstream promoted outputs. -/
def objVal (v : String → ℚ) : ℚ := evalExecComp execCompExpr (objEnv v)

/-! ## Top-level dispatch (runScript.py lines 122-190)

The script runs, in order: `prob.setup` (constructing the forward-model
machinery), the `om.n2` diagram emission, the `-optimizer` if/elif chain
(lines 131-166; the else branch prints and calls `exit(1)`), and the
`-task` if/elif chain (lines 172-190).  We model one run as the list of
externally observable events it performs, together with its exit status. -/

inductive Event where
  | probSetup
  | n2Diagram
  | optSettings (opt : String)
  | runDriver
  | runModel
  | computeTotals
  | checkTotals (compactPrint : Bool) (step : ℚ) (form : String) (stepCalc : String)
  | printTotals
  | printMsg (s : String)
  deriving DecidableEq, Repr

/-- Does the event invoke the external solver machinery (a forward solve,
an optimization loop, or a derivative computation)? -/
def Event.isSolve : Event → Bool
  | Event.runDriver => true
  | Event.runModel => true
  | Event.computeTotals => true
  | Event.checkTotals _ _ _ _ => true
  | _ => false

/-- Does the event compute derivatives (total-derivative computation or
finite-difference verification)? -/
def Event.isDeriv : Event → Bool
  | Event.computeTotals => true
  | Event.checkTotals _ _ _ _ => true
  | _ => false

/-- The `-task` if/elif chain (lines 172-190), appending its events to the
trace accumulated so far.  `rank` is `MPI.COMM_WORLD.rank`. -/
def taskDispatch (ev : List Event) (task : String) (rank : Nat) : List Event × Nat :=
  if task = "run_driver" then
    (ev ++ [Event.runDriver], 0)
  else if task = "run_model" then
    (ev ++ [Event.runModel], 0)
  else if task = "compute_totals" then
    (ev ++ [Event.runModel, Event.computeTotals] ++
      (if rank = 0 then [Event.printTotals] else []), 0)
  else if task = "check_totals" then
    (ev ++ [Event.runModel, Event.checkTotals false (1 / 1000) "central" "abs"], 0)
  else
    (ev ++ [Event.printMsg "task arg not found!"], 1)

/-- One run of the script: `args.optimizer` and `args.task` are the two
command-line tokens, `rank` is the process rank in the world
communicator.  Returns the event trace and the process exit status. -/
def runScript (optimizer task : String) (rank : Nat) : List Event × Nat :=
  let ev0 := [Event.probSetup, Event.n2Diagram]
  if optimizer = "SNOPT" then
    taskDispatch (ev0 ++ [Event.optSettings "SNOPT"]) task rank
  else if optimizer = "IPOPT" then
    taskDispatch (ev0 ++ [Event.optSettings "IPOPT"]) task rank
  else if optimizer = "SLSQP" then
    taskDispatch (ev0 ++ [Event.optSettings "SLSQP"]) task rank
  else
    (ev0 ++ [Event.printMsg "optimizer arg not valid!"], 1)

/-- The events performed before the task dispatch on a recognized
optimizer: problem setup, diagram emission, optimizer settings. -/
def setupTrace (opt : String) : List Event :=
  [Event.probSetup, Event.n2Diagram, Event.optSettings opt]

end RunScript

namespace RunScript

/-! ## Helper lemmas -/

theorem runScript_valid (opt task : String) (rank : Nat)
    (h : opt = "SNOPT" ∨ opt = "IPOPT" ∨ opt = "SLSQP") :
    runScript opt task rank = taskDispatch (setupTrace opt) task rank := by
  rcases h with h | h | h <;> subst h <;> rfl

theorem setupTrace_no_solve (opt : String) :
    (setupTrace opt).filter Event.isSolve = [] := rfl

theorem setupTrace_count_runModel (opt : String) :
    (setupTrace opt).count Event.runModel = 0 := by
  simp [setupTrace, List.count_cons, Event.isSolve]

theorem taskDispatch_bad (ev : List Event) (task : String) (rank : Nat)
    (h1 : task ≠ "run_driver") (h2 : task ≠ "run_model")
    (h3 : task ≠ "compute_totals") (h4 : task ≠ "check_totals") :
    taskDispatch ev task rank = (ev ++ [Event.printMsg "task arg not found!"], 1) := by
  simp [taskDispatch, h1, h2, h3, h4]

theorem runScript_invalid_opt (opt task : String) (rank : Nat)
    (h1 : opt ≠ "SNOPT") (h2 : opt ≠ "IPOPT") (h3 : opt ≠ "SLSQP") :
    runScript opt task rank =
      ([Event.probSetup, Event.n2Diagram, Event.printMsg "optimizer arg not valid!"], 1) := by
  simp [runScript, h1, h2, h3]

/-! ## Claim theorems about the configuration and the graph -/

/-- C10: in `daOptions["function"]`, `UFieldVar` restricts the variance to
vector component indices [0, 1] of field `U`, while `betaVar` is declared
over the scalar field `betaFINuTilda` with no index restriction; both use
scale 1.0, source `allCells`, field mode, and non-time-dependent
reference data. -/
theorem c10_function_map :
    daFunctions = [("UFieldVar", uFieldVar), ("betaVar", betaVar)] ∧
    uFieldVar.type = "variance" ∧
    uFieldVar.varName = "U" ∧
    uFieldVar.varType = "vector" ∧
    uFieldVar.indices = some [0, 1] ∧
    betaVar.type = "variance" ∧
    betaVar.varName = "betaFINuTilda" ∧
    betaVar.varType = "scalar" ∧
    betaVar.indices = none ∧
    uFieldVar.scale = 1 ∧ betaVar.scale = 1 ∧
    uFieldVar.source = "allCells" ∧ betaVar.source = "allCells" ∧
    uFieldVar.mode = "field" ∧ betaVar.mode = "field" ∧
    uFieldVar.timeDependentRefData = false ∧
    betaVar.timeDependentRefData = false := by
  refine ⟨rfl, rfl, rfl, rfl, rfl, rfl, rfl, rfl, rfl, rfl, rfl, rfl, rfl,
    rfl, rfl, rfl, rfl⟩

/-- C7: `dvs` exposes exactly one output, named `beta`, whose initial
value is an array of ones of length `nCells = 3500`, not distributed;
that array is connected to `scenario1.beta`, and `beta` is the declared
design variable with bounds [-5.0, 10.0] and scale 1.0. -/
theorem c7_dvs_beta :
    dvsOutputs.length = 1 ∧
    (∀ o ∈ dvsOutputs, o.name = "beta" ∧
      o.val.length = nCells ∧ (∀ x ∈ o.val, x = 1) ∧
      o.distributed = false) ∧
    nCells = 3500 ∧
    ("beta", "scenario1.beta") ∈ connections ∧
    designVars = [{ name := "beta", lower := -5, upper := 10, scaler := 1 }] := by
  refine ⟨rfl, ?_, rfl, ?_, rfl⟩
  · intro o ho
    simp only [dvsOutputs, List.mem_singleton] at ho
    subst ho
    refine ⟨rfl, by simp, ?_, rfl⟩
    intro x hx
    exact List.eq_of_mem_replicate hx
  · simp [connections]

/-- C1: the composite objective `obj` computes `val = error + regulation`:
for any valuation of the upstream promoted outputs, `obj.val` equals the
exact sum of the values connected from `scenario1.aero_post.UFieldVar`
and `scenario1.aero_post.betaVar`. -/
theorem c1_obj_val (v : String → ℚ) :
    objVal v = v "scenario1.aero_post.UFieldVar" + v "scenario1.aero_post.betaVar" := by
  have hsplit : splitChar (Char.ofNat 43) (rhsOf execCompExpr) = ["error", "regulation"] := by
    decide
  have he : objEnv v "error" = v "scenario1.aero_post.UFieldVar" := rfl
  have hr : objEnv v "regulation" = v "scenario1.aero_post.betaVar" := rfl
  simp [objVal, evalExecComp, hsplit, he, hr]

/-! ## Claim theorems about the run dispatcher -/

/-- C4: with a recognized optimizer, task `run_model` performs exactly one
forward solve, zero derivative computations and zero optimization
iterations. -/
theorem c4_run_model (opt : String) (rank : Nat)
    (h : opt = "SNOPT" ∨ opt = "IPOPT" ∨ opt = "SLSQP") :
    (runScript opt "run_model" rank).1 = setupTrace opt ++ [Event.runModel] ∧
    (runScript opt "run_model" rank).1.count Event.runModel = 1 ∧
    (runScript opt "run_model" rank).1.filter Event.isDeriv = [] ∧
    Event.runDriver ∉ (runScript opt "run_model" rank).1 := by
  rw [runScript_valid _ _ _ h]
  refine ⟨rfl, ?_, ?_, ?_⟩ <;>
    simp [taskDispatch, setupTrace, List.count_append, List.count_cons, Event.isDeriv]

/-- C4 witness at optimizer IPOPT, rank 0. -/
theorem c4_run_model_witness :
    (runScript "IPOPT" "run_model" 0).1 = setupTrace "IPOPT" ++ [Event.runModel] ∧
    (runScript "IPOPT" "run_model" 0).1.count Event.runModel = 1 ∧
    (runScript "IPOPT" "run_model" 0).1.filter Event.isDeriv = [] ∧
    Event.runDriver ∉ (runScript "IPOPT" "run_model" 0).1 :=
  c4_run_model "IPOPT" 0 (Or.inr (Or.inl rfl))

/-- C2: with a recognized optimizer, task `compute_totals` performs
exactly one forward solve immediately followed by exactly one
total-derivative computation, and the totals are printed if and only if
the world-communicator rank is 0. -/
theorem c2_compute_totals (opt : String) (rank : Nat)
    (h : opt = "SNOPT" ∨ opt = "IPOPT" ∨ opt = "SLSQP") :
    (runScript opt "compute_totals" rank).1 =
      setupTrace opt ++ [Event.runModel, Event.computeTotals] ++
        (if rank = 0 then [Event.printTotals] else []) ∧
    (runScript opt "compute_totals" rank).1.count Event.runModel = 1 ∧
    (runScript opt "compute_totals" rank).1.count Event.computeTotals = 1 ∧
    (Event.printTotals ∈ (runScript opt "compute_totals" rank).1 ↔ rank = 0) := by
  rw [runScript_valid _ _ _ h]
  refine ⟨rfl, ?_, ?_, ?_⟩ <;>
    by_cases hr : rank = 0 <;>
      simp [taskDispatch, setupTrace, List.count_append, List.count_cons, hr]

/-- C2 witness at optimizer IPOPT, rank 1 (a non-coordinating rank). -/
theorem c2_compute_totals_witness :
    (runScript "IPOPT" "compute_totals" 1).1 =
      setupTrace "IPOPT" ++ [Event.runModel, Event.computeTotals] ++
        (if 1 = 0 then [Event.printTotals] else []) ∧
    (runScript "IPOPT" "compute_totals" 1).1.count Event.runModel = 1 ∧
    (runScript "IPOPT" "compute_totals" 1).1.count Event.computeTotals = 1 ∧
    (Event.printTotals ∈ (runScript "IPOPT" "compute_totals" 1).1 ↔ 1 = 0) :=
  c2_compute_totals "IPOPT" 1 (Or.inr (Or.inl rfl))

/-- C3: with a recognized optimizer, task `check_totals` performs exactly
one forward solve and then the derivative verification with step 1e-3,
central differencing, absolute step mode, and non-compact output. -/
theorem c3_check_totals (opt : String) (rank : Nat)
    (h : opt = "SNOPT" ∨ opt = "IPOPT" ∨ opt = "SLSQP") :
    (runScript opt "check_totals" rank).1 =
      setupTrace opt ++
        [Event.runModel, Event.checkTotals false (1 / 1000) "central" "abs"] ∧
    (runScript opt "check_totals" rank).1.count Event.runModel = 1 ∧
    (setupTrace opt).filter Event.isSolve = [] := by
  rw [runScript_valid _ _ _ h]
  refine ⟨rfl, ?_, rfl⟩
  simp [taskDispatch, setupTrace, List.count_append, List.count_cons]

/-- C3 witness at optimizer SLSQP, rank 0. -/
theorem c3_check_totals_witness :
    (runScript "SLSQP" "check_totals" 0).1 =
      setupTrace "SLSQP" ++
        [Event.runModel, Event.checkTotals false (1 / 1000) "central" "abs"] ∧
    (runScript "SLSQP" "check_totals" 0).1.count Event.runModel = 1 ∧
    (setupTrace "SLSQP").filter Event.isSolve = [] :=
  c3_check_totals "SLSQP" 0 (Or.inr (Or.inr rfl))

/-- C5: for every optimizer token other than SNOPT, IPOPT, SLSQP
(case-sensitive), the script prints the optimizer error message and exits
with status 1, with no solver invocation anywhere in the run. -/
theorem c5_invalid_optimizer (opt task : String) (rank : Nat)
    (h1 : opt ≠ "SNOPT") (h2 : opt ≠ "IPOPT") (h3 : opt ≠ "SLSQP") :
    runScript opt task rank =
      ([Event.probSetup, Event.n2Diagram,
        Event.printMsg "optimizer arg not valid!"], 1) ∧
    (runScript opt task rank).2 = 1 ∧
    Event.printMsg "optimizer arg not valid!" ∈ (runScript opt task rank).1 ∧
    (runScript opt task rank).1.filter Event.isSolve = [] := by
  have he := runScript_invalid_opt opt task rank h1 h2 h3
  refine ⟨he, ?_, ?_, ?_⟩ <;> rw [he] <;> simp [Event.isSolve]

/-- C5 witness at the unrecognized optimizer token `snopt`. -/
theorem c5_invalid_optimizer_witness :
    runScript "snopt" "run_driver" 0 =
      ([Event.probSetup, Event.n2Diagram,
        Event.printMsg "optimizer arg not valid!"], 1) ∧
    (runScript "snopt" "run_driver" 0).2 = 1 ∧
    Event.printMsg "optimizer arg not valid!" ∈ (runScript "snopt" "run_driver" 0).1 ∧
    (runScript "snopt" "run_driver" 0).1.filter Event.isSolve = [] :=
  c5_invalid_optimizer "snopt" "run_driver" 0 (by decide) (by decide) (by decide)

/-- C6: for every task token other than the four recognized ones, the
script prints a diagnostic message and exits with status 1, after the
forward-model machinery has been constructed (`prob.setup` ran) but with
no solve, derivative computation, or optimization iteration. -/
theorem c6_invalid_task (opt task : String) (rank : Nat)
    (h1 : task ≠ "run_driver") (h2 : task ≠ "run_model")
    (h3 : task ≠ "compute_totals") (h4 : task ≠ "check_totals") :
    (runScript opt task rank).2 = 1 ∧
    (∃ m, Event.printMsg m ∈ (runScript opt task rank).1) ∧
    Event.probSetup ∈ (runScript opt task rank).1 ∧
    (runScript opt task rank).1.filter Event.isSolve = [] := by
  by_cases hv : opt = "SNOPT" ∨ opt = "IPOPT" ∨ opt = "SLSQP"
  · rw [runScript_valid _ _ _ hv, taskDispatch_bad _ _ _ h1 h2 h3 h4]
    refine ⟨rfl, ⟨"task arg not found!", ?_⟩, ?_, ?_⟩ <;>
      simp [setupTrace, Event.isSolve]
  · push_neg at hv
    rw [runScript_invalid_opt _ _ _ hv.1 hv.2.1 hv.2.2]
    refine ⟨rfl, ⟨"optimizer arg not valid!", ?_⟩, ?_, ?_⟩ <;>
      simp [Event.isSolve]

/-- C6 witness at optimizer IPOPT and the unrecognized task `solve`. -/
theorem c6_invalid_task_witness :
    (runScript "IPOPT" "solve" 0).2 = 1 ∧
    (∃ m, Event.printMsg m ∈ (runScript "IPOPT" "solve" 0).1) ∧
    Event.probSetup ∈ (runScript "IPOPT" "solve" 0).1 ∧
    (runScript "IPOPT" "solve" 0).1.filter Event.isSolve = [] :=
  c6_invalid_task "IPOPT" "solve" 0 (by decide) (by decide) (by decide) (by decide)

/-- C9: when both the optimizer and the task token are unrecognized, the
run exits with status 1 printing the optimizer error message, never
prints the task error message, and the task token is never examined: the
run is identical for every task token. -/
theorem c9_optimizer_before_task (opt task : String) (rank : Nat)
    (h1 : opt ≠ "SNOPT") (h2 : opt ≠ "IPOPT") (h3 : opt ≠ "SLSQP")
    (h4 : task ≠ "run_driver") (h5 : task ≠ "run_model")
    (h6 : task ≠ "compute_totals") (h7 : task ≠ "check_totals") :
    (runScript opt task rank).2 = 1 ∧
    Event.printMsg "optimizer arg not valid!" ∈ (runScript opt task rank).1 ∧
    Event.printMsg "task arg not found!" ∉ (runScript opt task rank).1 ∧
    (∀ t2 : String, runScript opt t2 rank = runScript opt task rank) := by
  have he := runScript_invalid_opt opt task rank h1 h2 h3
  refine ⟨?_, ?_, ?_, ?_⟩
  · rw [he]
  · rw [he]; simp
  · rw [he]; simp
  · intro t2
    rw [he, runScript_invalid_opt opt t2 rank h1 h2 h3]

/-- C9 witness at optimizer `adam` and task `train`. -/
theorem c9_optimizer_before_task_witness :
    (runScript "adam" "train" 0).2 = 1 ∧
    Event.printMsg "optimizer arg not valid!" ∈ (runScript "adam" "train" 0).1 ∧
    Event.printMsg "task arg not found!" ∉ (runScript "adam" "train" 0).1 ∧
    (∀ t2 : String, runScript "adam" t2 0 = runScript "adam" "train" 0) :=
  c9_optimizer_before_task "adam" "train" 0 (by decide) (by decide) (by decide)
    (by decide) (by decide) (by decide) (by decide)

end RunScript
